import Mathlib

/-!
Shallow embedding of `server.py`, the withdrawal web interface of the
privacy-preserving pool system: the `WebHandler` class with its `do_GET` /
`do_POST` routing and the three POST handlers `handle_generate_proof`,
`handle_verify_proof` and `handle_health`.

Modelling conventions:
* A request body that reached `json.loads` successfully is a finite map from
  field names to scalar JSON values (`ReqData`).  `json.loads` produces a
  Python dict, whose keys are unique, so first-match lookup over the
  association list is exact.  JSON numbers are modelled as integers (no
  handler branch in the source depends on float values); JSON arrays and
  nested objects are omitted because the only operation applied to a field
  value is `int(...)`, whose failure on such values the `Json.null`
  constructor already exhibits.
* `int(x)` on a field value is `pyInt`: an integer is itself, a boolean is
  0 or 1 (Python `bool` is an `int` subclass), a string goes through
  Python's literal syntax (optional surrounding whitespace, optional sign,
  ASCII digits with single underscores between digits), and `null` raises,
  giving `none`.
* Ambient effects are injected as arguments: `nowMs` stands for
  `int(time.time() * 1000)`, `now` for `time.time()`, and `r` for the value
  drawn by `random.random()` (a rational in place of the IEEE double; the
  draw's comparison against 0.1 is kept).
* The whole body of each POST handler sits in a `try` whose `except` sends
  a 500 "Internal server error", so a body that fails `json.loads` (the
  `Body.malformed` case), a field that `int(...)` rejects, and a decoded
  non-object body on which the membership test `field not in data` raises
  TypeError (an int, bool or None body; a string body instead gets the
  substring test) all end in `internalError`.  `send_error` responses carry
  no CORS header; the handler-built 200 responses send
  `Access-Control-Allow-Origin: *`.
-/

/-- Scalar JSON values as decoded by `json.loads`. -/
inductive Json where
  | str (s : String)
  | int (n : Int)
  | bool (b : Bool)
  | null
  deriving DecidableEq, Repr

/-- A parsed JSON object body: field names mapped to values. -/
abbrev ReqData := List (String × Json)

/-- Dict lookup, `data[field]` returning `none` when `field not in data`. -/
def lookupJ (data : ReqData) (f : String) : Option Json :=
  match data with
  | [] => none
  | (k, v) :: rest => if k = f then some v else lookupJ rest f

/-- Digit run of a Python integer literal: ASCII digits with single
underscores allowed only between digits.  The flag records whether the
previous character was an underscore (also set at the start, so a leading
underscore or an empty run is rejected, as Python does). -/
def parseDigitsAux : List Char → Nat → Bool → Option Nat
  | [], _, true => none
  | [], acc, false => some acc
  | c :: cs, acc, lastU =>
    if c.isDigit then parseDigitsAux cs (acc * 10 + (c.toNat - 48)) false
    else if c = '_' then
      if lastU then none else parseDigitsAux cs acc true
    else none

/-- Python `int(s)` for a string `s`: strip surrounding whitespace, optional
sign, then a digit run.  (Restricted to ASCII digits; no handler input in
any claim uses the wider unicode-digit forms.) -/
def pyStrToInt (s : String) : Option Int :=
  match s.trim.data with
  | '+' :: rest => (parseDigitsAux rest 0 true).map Int.ofNat
  | '-' :: rest => (parseDigitsAux rest 0 true).map (fun n => -(n : Int))
  | rest => (parseDigitsAux rest 0 true).map Int.ofNat

/-- Python `int(x)` applied to a decoded JSON field value; `none` is the
raised `TypeError`/`ValueError` (caught by the handler's `except`). -/
def pyInt : Json → Option Int
  | Json.int n => some n
  | Json.bool b => some (if b then 1 else 0)
  | Json.str s => pyStrToInt s
  | Json.null => none

/-- The `required_fields` list of `handle_generate_proof`. -/
def required_fields : List String :=
  ["user_address", "pool_id", "user_balance", "withdrawal_amount", "pool_liquidity"]

/-- The validation loop `for field in required_fields: if field not in
data: ...`: the first required field absent from the body, if any. -/
def checkRequired : List String → ReqData → Option String
  | [], _ => none
  | f :: fs, data =>
    match lookupJ data f with
    | none => some f
    | some _ => checkRequired fs data

/-- The `proof_data` dict built by `handle_generate_proof`. -/
structure ProofData where
  proof : String
  public_inputs : String
  vkey_hash : String
  mode : String
  user_address : Json
  pool_id : Int
  user_balance : Int
  withdrawal_amount : Int
  pool_liquidity : Int
  timestamp : Int
  is_valid : Bool
  deriving DecidableEq, Repr

/-- Whether `pat` starts the character list (prefix check over chars). -/
def startsWithChars : List Char → List Char → Bool
  | [], _ => true
  | _ :: _, [] => false
  | a :: as, b :: bs => a == b && startsWithChars as bs

/-- Whether `pat` occurs contiguously inside the character list. -/
def hasSub (pat : List Char) : List Char → Bool
  | [] => startsWithChars pat []
  | c :: cs => startsWithChars pat (c :: cs) || hasSub pat cs

/-- Python membership `field in s` when the decoded body is a string:
substring containment. -/
def pyStrMem (field s : String) : Bool :=
  hasSub field.data s.data

/-- The validation loop run against a string body: `field not in data` is
the substring test, so the first required field that is not a substring is
reported; if every field name occurs in the string the loop passes. -/
def checkRequiredStr : List String → String → Option String
  | [], _ => none
  | f :: fs, s => if pyStrMem f s then checkRequiredStr fs s else some f

/-- A request body as it stands after the `json.loads` step: the decode
raised (caught by `except`), or it produced a non-object JSON value (the
body `5` decodes to the Python int 5), or a field map came out.  On a
non-object value the handlers' membership test `field not in data` raises
TypeError for an int, bool or None (none is iterable), while for a string
it is the substring test; either way `data[field]` on a non-dict raises.
(Bodies decoding to JSON arrays are not modelled, as `Json` has no array
constructor; no claim quantifies over them.) -/
inductive Body where
  | malformed
  | parsedNonObject (v : Json)
  | parsed (data : ReqData)
  deriving DecidableEq, Repr

/-- Outcome of `handle_generate_proof`: `send_error 400` naming the first
missing field, the `except` branch's `send_error 500`, or the 200 success
envelope around the fabricated `proof_data`. -/
inductive GenResult where
  | missingField (f : String)
  | internalError
  | ok (pd : ProofData)
  deriving DecidableEq, Repr

/-- `handle_generate_proof`, with the clock `int(time.time() * 1000)`
injected as `nowMs`. -/
def handle_generate_proof (body : Body) (nowMs : Int) : GenResult :=
  match body with
  | Body.malformed => GenResult.internalError
  | Body.parsedNonObject (Json.str s) =>
    match checkRequiredStr required_fields s with
    | some f => GenResult.missingField f
    | none => GenResult.internalError
  | Body.parsedNonObject _ => GenResult.internalError
  | Body.parsed data =>
    match checkRequired required_fields data with
    | some f => GenResult.missingField f
    | none =>
      match lookupJ data "user_address", lookupJ data "pool_id",
            lookupJ data "user_balance", lookupJ data "withdrawal_amount",
            lookupJ data "pool_liquidity" with
      | some ua, some jp, some jb, some jw, some jl =>
        match pyInt jp, pyInt jb, pyInt jw, pyInt jl with
        | some p, some b, some w, some l =>
          GenResult.ok
            { proof := "0x" ++ String.mk (List.replicate 2000 'a')
              public_inputs := "0x" ++ String.mk (List.replicate 100 'b')
              vkey_hash := "0x" ++ String.mk (List.replicate 64 'c')
              mode := "compressed"
              user_address := ua
              pool_id := p
              user_balance := b
              withdrawal_amount := w
              pool_liquidity := l
              timestamp := nowMs
              is_valid := true }
        | _, _, _, _ => GenResult.internalError
      | _, _, _, _, _ => GenResult.internalError

/-- HTTP status of a `handle_generate_proof` outcome. -/
def genStatus : GenResult → Nat
  | GenResult.missingField _ => 400
  | GenResult.internalError => 500
  | GenResult.ok _ => 200

/-- Whether the `handle_generate_proof` response carries
`Access-Control-Allow-Origin: *` (only the handler-built 200 does;
`send_error` responses do not). -/
def genCors : GenResult → Bool
  | GenResult.ok _ => true
  | _ => false

/-- Outcome of `handle_verify_proof`: `send_error 400 "Missing proof_data"`,
the `except` branch's 500, or the 200 envelope carrying the validity flag
and the echoed `proof_data`. -/
inductive VerifyResult where
  | missingProofData
  | internalError
  | ok (valid : Bool) (pdata : Json)
  deriving DecidableEq, Repr

/-- `handle_verify_proof`, with the `random.random()` draw injected as `r`;
the source computes `is_valid = random.random() > 0.1`. -/
def handle_verify_proof (body : Body) (r : Rat) : VerifyResult :=
  match body with
  | Body.malformed => VerifyResult.internalError
  | Body.parsedNonObject (Json.str s) =>
    if pyStrMem "proof_data" s then VerifyResult.internalError
    else VerifyResult.missingProofData
  | Body.parsedNonObject _ => VerifyResult.internalError
  | Body.parsed data =>
    match lookupJ data "proof_data" with
    | none => VerifyResult.missingProofData
    | some pd => VerifyResult.ok (decide ((1 : Rat)/10 < r)) pd

/-- HTTP status of a `handle_verify_proof` outcome. -/
def verifyStatus : VerifyResult → Nat
  | VerifyResult.missingProofData => 400
  | VerifyResult.internalError => 500
  | VerifyResult.ok _ _ => 200

/-- Whether the `handle_verify_proof` response carries
`Access-Control-Allow-Origin: *`. -/
def verifyCors : VerifyResult → Bool
  | VerifyResult.ok _ _ => true
  | _ => false

/-- Body of the `handle_health` JSON response. -/
structure HealthBody where
  status : String
  timestamp : Rat
  version : String
  deriving DecidableEq, Repr

/-- Full `handle_health` response: status line, CORS header, JSON body. -/
structure HealthResponse where
  httpStatus : Nat
  corsAllowAll : Bool
  body : HealthBody
  deriving DecidableEq, Repr

/-- `handle_health`, with the clock `time.time()` injected as `now`.  It
takes no dependency state: the source consults nothing. -/
def handle_health (now : Rat) : HealthResponse :=
  { httpStatus := 200
    corsAllowAll := true
    body := { status := "healthy", timestamp := now, version := "1.0.0" } }

/-- HTTP method of an inbound request, as far as `WebHandler` routes it. -/
inductive Method where
  | GET
  | POST
  deriving DecidableEq, Repr

/-- Where `WebHandler` sends a request. -/
inductive Dispatch where
  | staticFile (path : String)
  | generateProof
  | verifyProof
  | health
  | notFound
  deriving DecidableEq, Repr

/-- `do_GET`: rewrite `/` to `/index.html`, then hand every GET to
`SimpleHTTPRequestHandler`'s static file serving. -/
def do_GET (path : String) : Dispatch :=
  Dispatch.staticFile (if path = "/" then "/index.html" else path)

/-- `do_POST`: route the three API paths, 404 anything else. -/
def do_POST (path : String) : Dispatch :=
  if path = "/api/generate-proof" then Dispatch.generateProof
  else if path = "/api/verify-proof" then Dispatch.verifyProof
  else if path = "/api/health" then Dispatch.health
  else Dispatch.notFound

/-- Combined routing of `WebHandler`. -/
def dispatch : Method → String → Dispatch
  | Method.GET, path => do_GET path
  | Method.POST, path => do_POST path

/-- Whether a `handle_generate_proof` outcome is a 400 naming a field that
is genuinely absent from the given body and genuinely required. -/
def names_absent_field (res : GenResult) (data : ReqData) : Bool :=
  match res with
  | GenResult.missingField f =>
      decide (f ∈ required_fields) && (lookupJ data f).isNone
  | _ => false

/-- A well-formed generate-proof request: all five required fields, all
four numeric ones plain integers. -/
def demo_request : ReqData :=
  [("user_address", Json.str "0x1234abcd"), ("pool_id", Json.int 1),
   ("user_balance", Json.int 1000), ("withdrawal_amount", Json.int 100),
   ("pool_liquidity", Json.int 50000)]

/-- A request whose withdrawal_amount (100) exceeds its user_balance (50). -/
def overdraft_request : ReqData :=
  [("user_address", Json.str "0x1234abcd"), ("pool_id", Json.int 1),
   ("user_balance", Json.int 50), ("withdrawal_amount", Json.int 100),
   ("pool_liquidity", Json.int 1000)]

/-- A request with a negative withdrawal_amount. -/
def negative_request : ReqData :=
  [("user_address", Json.str "0x1234abcd"), ("pool_id", Json.int 1),
   ("user_balance", Json.int 10), ("withdrawal_amount", Json.int (-5)),
   ("pool_liquidity", Json.int 10)]

/-- A request whose pool_id is JSON null, on which `int(...)` raises. -/
def non_numeric_request : ReqData :=
  [("user_address", Json.str "0x1234abcd"), ("pool_id", Json.null),
   ("user_balance", Json.int 10), ("withdrawal_amount", Json.int 5),
   ("pool_liquidity", Json.int 10)]

/-- If some field of `fs` is absent from `data`, the validation loop stops
at an absent field of `fs` (the first one). -/
theorem checkRequired_finds_missing (fs : List String) (data : ReqData)
    (f : String) (hf : f ∈ fs) (hnone : lookupJ data f = none) :
    ∃ g, checkRequired fs data = some g ∧ g ∈ fs ∧ lookupJ data g = none := by
  induction fs with
  | nil => cases hf
  | cons a as ih =>
    cases ha : lookupJ data a with
    | none => exact ⟨a, by simp [checkRequired, ha], List.mem_cons_self a as, ha⟩
    | some v =>
      have hf' : f ∈ as := by
        rcases List.mem_cons.mp hf with h | h
        · subst h; rw [ha] at hnone; cases hnone
        · exact h
      obtain ⟨g, h1, h2, h3⟩ := ih hf'
      exact ⟨g, by simp [checkRequired, ha, h1], List.mem_cons_of_mem a h2, h3⟩

/-- C1: the validity flag of `handle_verify_proof` is not a deterministic
function of the proof artifact: the source computes
`is_valid = random.random() > 0.1`, so the identical `proof_data` body is
judged invalid under the draw 1/20 and valid under the draw 1/2. -/
theorem verify_proof_validity_follows_random_draw :
    handle_verify_proof (Body.parsed [("proof_data", Json.str "0xdeadbeef")]) (1/20)
      = VerifyResult.ok false (Json.str "0xdeadbeef") ∧
    handle_verify_proof (Body.parsed [("proof_data", Json.str "0xdeadbeef")]) (1/2)
      = VerifyResult.ok true (Json.str "0xdeadbeef") ∧
    handle_verify_proof (Body.parsed [("proof_data", Json.str "0xdeadbeef")]) (1/20)
      ≠ handle_verify_proof (Body.parsed [("proof_data", Json.str "0xdeadbeef")]) (1/2) := by
  have h1 : handle_verify_proof (Body.parsed [("proof_data", Json.str "0xdeadbeef")]) (1/20)
      = VerifyResult.ok false (Json.str "0xdeadbeef") := by
    simp [handle_verify_proof, lookupJ]
    norm_num
  have h2 : handle_verify_proof (Body.parsed [("proof_data", Json.str "0xdeadbeef")]) (1/2)
      = VerifyResult.ok true (Json.str "0xdeadbeef") := by
    simp [handle_verify_proof, lookupJ]
    norm_num
  refine ⟨h1, h2, by rw [h1, h2]; simp⟩

/-- C2: `handle_generate_proof` calls no proof engine at all: a well-formed
request is always answered 200 with a fabricated artifact (2000 'a' hex
characters of "proof"), never 503 with a service-unavailable failure. -/
theorem generate_proof_fabricates_artifact :
    handle_generate_proof (Body.parsed demo_request) 1700000000000 =
      GenResult.ok
        { proof := "0x" ++ String.mk (List.replicate 2000 'a')
          public_inputs := "0x" ++ String.mk (List.replicate 100 'b')
          vkey_hash := "0x" ++ String.mk (List.replicate 64 'c')
          mode := "compressed"
          user_address := Json.str "0x1234abcd"
          pool_id := 1
          user_balance := 1000
          withdrawal_amount := 100
          pool_liquidity := 50000
          timestamp := 1700000000000
          is_valid := true } ∧
    genStatus (handle_generate_proof (Body.parsed demo_request) 1700000000000) = 200 := by
  refine ⟨rfl, rfl⟩

/-- C3: a request withdrawing 100 from a balance of 50 is not rejected:
`handle_generate_proof` never compares the two fields and answers 200. -/
theorem generate_proof_accepts_overdraft :
    genStatus (handle_generate_proof (Body.parsed overdraft_request) 0) = 200 ∧
    handle_generate_proof (Body.parsed overdraft_request) 0 =
      GenResult.ok
        { proof := "0x" ++ String.mk (List.replicate 2000 'a')
          public_inputs := "0x" ++ String.mk (List.replicate 100 'b')
          vkey_hash := "0x" ++ String.mk (List.replicate 64 'c')
          mode := "compressed"
          user_address := Json.str "0x1234abcd"
          pool_id := 1
          user_balance := 50
          withdrawal_amount := 100
          pool_liquidity := 1000
          timestamp := 0
          is_valid := true } := by
  refine ⟨rfl, rfl⟩

/-- C4 (amended): a body that parsed as a JSON object but lacks a required
field is answered 400: `handle_generate_proof` stops at an absent member of
`required_fields` and names it, and `handle_verify_proof` answers its 400
whenever `proof_data` is absent.  (The object restriction is forced: a body
decoding to a non-object JSON value is missing every required field yet
lands in the blanket except, see the counterexample.) -/
theorem missing_required_field_gives_400 :
    (∀ (data : ReqData) (nowMs : Int),
        (∃ f ∈ required_fields, lookupJ data f = none) →
        names_absent_field (handle_generate_proof (Body.parsed data) nowMs) data = true ∧
        genStatus (handle_generate_proof (Body.parsed data) nowMs) = 400) ∧
    (∀ (data : ReqData) (r : Rat),
        lookupJ data "proof_data" = none →
        handle_verify_proof (Body.parsed data) r = VerifyResult.missingProofData ∧
        verifyStatus (handle_verify_proof (Body.parsed data) r) = 400) := by
  constructor
  · rintro data nowMs ⟨f, hf, hnone⟩
    obtain ⟨g, hg1, hg2, hg3⟩ := checkRequired_finds_missing required_fields data f hf hnone
    have hrun : handle_generate_proof (Body.parsed data) nowMs = GenResult.missingField g := by
      simp [handle_generate_proof, hg1]
    rw [hrun]
    simp [names_absent_field, genStatus, hg2, hg3]
  · intro data r h
    have hrun : handle_verify_proof (Body.parsed data) r = VerifyResult.missingProofData := by
      simp [handle_verify_proof, h]
    rw [hrun]
    simp [verifyStatus]

/-- C4 witness: a body carrying only pool_id lacks user_address and gets the
400 naming an absent required field; an empty body lacks proof_data and the
verify handler answers its 400. -/
theorem missing_required_field_gives_400_witness :
    (names_absent_field
        (handle_generate_proof (Body.parsed [("pool_id", Json.int 1)]) 0)
        [("pool_id", Json.int 1)] = true ∧
      genStatus (handle_generate_proof (Body.parsed [("pool_id", Json.int 1)]) 0) = 400) ∧
    (handle_verify_proof (Body.parsed []) (1/2) = VerifyResult.missingProofData ∧
      verifyStatus (handle_verify_proof (Body.parsed []) (1/2)) = 400) :=
  ⟨missing_required_field_gives_400.1 [("pool_id", Json.int 1)] 0
      ⟨"user_address", by simp [required_fields], rfl⟩,
    missing_required_field_gives_400.2 [] (1/2) rfl⟩

/-- C4 counterexample: the body `5` parses as JSON (decoding to the Python
int 5) and contains no required field, yet the membership test
`field not in data` raises TypeError into the blanket except: both handlers
answer 500, not the claimed 400 naming a missing field. -/
theorem scalar_body_missing_fields_gives_500 :
    handle_generate_proof (Body.parsedNonObject (Json.int 5)) 0 = GenResult.internalError ∧
    genStatus (handle_generate_proof (Body.parsedNonObject (Json.int 5)) 0) = 500 ∧
    genStatus (handle_generate_proof (Body.parsedNonObject (Json.int 5)) 0) ≠ 400 ∧
    handle_verify_proof (Body.parsedNonObject (Json.int 5)) (1/2) = VerifyResult.internalError ∧
    verifyStatus (handle_verify_proof (Body.parsedNonObject (Json.int 5)) (1/2)) = 500 ∧
    verifyStatus (handle_verify_proof (Body.parsedNonObject (Json.int 5)) (1/2)) ≠ 400 := by
  refine ⟨rfl, rfl, by decide, rfl, rfl, by decide⟩

/-- C5: `handle_health` consults no dependency: for every clock value it is
the same constant response with status "healthy" (so it can never report
"degraded" or "unhealthy", whatever the state of the proof and verifier
services). -/
theorem handle_health_constant_healthy :
    ∀ now : Rat,
      (handle_health now).body.status = "healthy" ∧
      (handle_health now).body.version = "1.0.0" ∧
      (handle_health now).httpStatus = 200 ∧
      (handle_health now).body.status ≠ "unhealthy" ∧
      (handle_health now).body.status ≠ "degraded" := by
  intro now
  refine ⟨rfl, rfl, rfl, by simp [handle_health], by simp [handle_health]⟩

/-- C6: numeric fields are not validated: a negative withdrawal_amount is
accepted silently (200 success echoing -5), and a pool_id on which
`int(...)` raises ends in the generic 500, not in a 400 validation
rejection. -/
theorem invalid_numeric_fields_not_rejected :
    handle_generate_proof (Body.parsed negative_request) 0 =
      GenResult.ok
        { proof := "0x" ++ String.mk (List.replicate 2000 'a')
          public_inputs := "0x" ++ String.mk (List.replicate 100 'b')
          vkey_hash := "0x" ++ String.mk (List.replicate 64 'c')
          mode := "compressed"
          user_address := Json.str "0x1234abcd"
          pool_id := 1
          user_balance := 10
          withdrawal_amount := -5
          pool_liquidity := 10
          timestamp := 0
          is_valid := true } ∧
    genStatus (handle_generate_proof (Body.parsed negative_request) 0) = 200 ∧
    handle_generate_proof (Body.parsed non_numeric_request) 0 = GenResult.internalError ∧
    genStatus (handle_generate_proof (Body.parsed non_numeric_request) 0) = 500 := by
  refine ⟨rfl, rfl, rfl, rfl⟩

/-- C7: a body that fails JSON parsing lands in the handlers' blanket
`except`, which sends 500 "Internal server error", not the 400 the
malformed-request contract prescribes. -/
theorem malformed_body_gives_500_not_400 :
    handle_generate_proof Body.malformed 0 = GenResult.internalError ∧
    genStatus (handle_generate_proof Body.malformed 0) = 500 ∧
    genStatus (handle_generate_proof Body.malformed 0) ≠ 400 ∧
    handle_verify_proof Body.malformed (1/2) = VerifyResult.internalError ∧
    verifyStatus (handle_verify_proof Body.malformed (1/2)) = 500 ∧
    verifyStatus (handle_verify_proof Body.malformed (1/2)) ≠ 400 := by
  refine ⟨rfl, rfl, by decide, rfl, rfl, by decide⟩

/-- C8: the `Access-Control-Allow-Origin: *` header is sent unconditionally
on every handler-built response: the health response always carries it, and
the 200 responses of both POST handlers carry it; no configuration flag
exists anywhere in the handlers to turn it off. -/
theorem cors_header_unconditional :
    (∀ now : Rat, (handle_health now).corsAllowAll = true) ∧
    genCors (handle_generate_proof (Body.parsed demo_request) 0) = true ∧
    verifyCors (handle_verify_proof (Body.parsed [("proof_data", Json.int 0)]) 1) = true := by
  refine ⟨fun _ => rfl, rfl, ?_⟩
  simp [handle_verify_proof, lookupJ, verifyCors]

/-- C9 counterexample: `do_GET` forwards every GET to static file serving
(`/api/health` included), so a GET to `/api/health` is not routed to the
health handler. -/
theorem get_api_health_serves_static_file :
    dispatch Method.GET "/api/health" = Dispatch.staticFile "/api/health" ∧
    dispatch Method.GET "/api/health" ≠ Dispatch.health := by
  refine ⟨rfl, by decide⟩

/-- C9 (amended): the health endpoint is reachable via POST, not GET:
`do_POST` routes `/api/health` to the health handler. -/
theorem post_api_health_routes_to_health :
    dispatch Method.POST "/api/health" = Dispatch.health := by
  decide

/-- C10: a generate-proof body carrying all five required fields, with the
four numeric ones coercible by `int(...)`, is answered with the success
envelope fully determined by the request and the clock: fixed mock proof
strings, mode "compressed", is_valid true, the five fields echoed (numeric
ones coerced). -/
theorem generate_proof_success_shape
    (data : ReqData) (nowMs : Int) (ua jp jb jw jl : Json) (p b w l : Int)
    (h1 : lookupJ data "user_address" = some ua)
    (h2 : lookupJ data "pool_id" = some jp)
    (h3 : lookupJ data "user_balance" = some jb)
    (h4 : lookupJ data "withdrawal_amount" = some jw)
    (h5 : lookupJ data "pool_liquidity" = some jl)
    (c1 : pyInt jp = some p) (c2 : pyInt jb = some b)
    (c3 : pyInt jw = some w) (c4 : pyInt jl = some l) :
    handle_generate_proof (Body.parsed data) nowMs =
      GenResult.ok
        { proof := "0x" ++ String.mk (List.replicate 2000 'a')
          public_inputs := "0x" ++ String.mk (List.replicate 100 'b')
          vkey_hash := "0x" ++ String.mk (List.replicate 64 'c')
          mode := "compressed"
          user_address := ua
          pool_id := p
          user_balance := b
          withdrawal_amount := w
          pool_liquidity := l
          timestamp := nowMs
          is_valid := true } := by
  have hcr : checkRequired required_fields data = none := by
    simp [checkRequired, required_fields, h1, h2, h3, h4, h5]
  simp [handle_generate_proof, hcr, h1, h2, h3, h4, h5, c1, c2, c3, c4]

/-- C10 witness: the success shape evaluated on a concrete well-formed
request at clock value 42. -/
theorem generate_proof_success_shape_witness :
    handle_generate_proof (Body.parsed demo_request) 42 =
      GenResult.ok
        { proof := "0x" ++ String.mk (List.replicate 2000 'a')
          public_inputs := "0x" ++ String.mk (List.replicate 100 'b')
          vkey_hash := "0x" ++ String.mk (List.replicate 64 'c')
          mode := "compressed"
          user_address := Json.str "0x1234abcd"
          pool_id := 1
          user_balance := 1000
          withdrawal_amount := 100
          pool_liquidity := 50000
          timestamp := 42
          is_valid := true } :=
  generate_proof_success_shape demo_request 42 (Json.str "0x1234abcd")
    (Json.int 1) (Json.int 1000) (Json.int 100) (Json.int 50000)
    1 1000 100 50000 rfl rfl rfl rfl rfl rfl rfl rfl rfl
